import Mathlib

/-!
# Verification of the NixieClock firmware display and control logic

Shallow embedding of `src/Firmware/src/main.cpp`, `src/Firmware/include/pins.h`
and `src/Firmware/include/pins_IN12.h` (the build selects `VARIANT 12`).

Machine integers are modelled as `Nat` with explicit reductions modulo `2 ^ w`
where the C code relies on fixed-width behaviour (the 64-bit serial stream and
the uint8 animation counter).  Fallible operations return a success flag
together with the state they produce.
-/

namespace NixieClock

/-! ## Pin map (`pins.h`, `pins_IN12.h`) -/

/-- `numChips` from `pins.h`: number of HV shift registers on the bus. -/
def numChips : Nat := 6

/-- `numDigits` from `pins.h`: number of digit tubes. -/
def numDigits : Nat := 4

/-- `P2B(CHIP, PIN) = (((CHIP)-1) * 8) + (PIN)` from `pins.h`. -/
def P2B (chip pin : Nat) : Nat := (chip - 1) * 8 + pin

/-- `digitsPinmap` from `pins_IN12.h`: row `digit`, column `numeral`. -/
def digitsPinmap : List (List Nat) :=
  [[P2B 1 5, P2B 1 3, P2B 1 2, P2B 1 1, P2B 1 0, P2B 1 7, P2B 1 6, P2B 2 6, P2B 2 5, P2B 2 4],
   [P2B 3 4, P2B 2 3, P2B 2 2, P2B 2 1, P2B 2 7, P2B 2 0, P2B 3 0, P2B 3 1, P2B 3 2, P2B 3 3],
   [P2B 5 7, P2B 4 4, P2B 4 3, P2B 4 5, P2B 4 2, P2B 4 6, P2B 4 1, P2B 4 7, P2B 4 0, P2B 5 1],
   [P2B 6 0, P2B 5 4, P2B 5 3, P2B 5 5, P2B 5 6, P2B 5 2, P2B 6 5, P2B 6 3, P2B 6 2, P2B 6 1]]

/-- `ledsPinmap` from `pins_IN12.h`. -/
def ledsPinmap : List Nat := [P2B 3 6, P2B 3 7]

/-- `dotsPinmap` from `pins_IN12.h`. -/
def dotsPinmap : List Nat := [P2B 1 4, P2B 3 5, P2B 5 0, P2B 6 4]

/-- `digitsPinmap[d][n]` (constant indexing, always in range in the source). -/
def digitPin (d n : Nat) : Nat := (digitsPinmap.getD d []).getD n 0

/-- `dotsPinmap[d]`. -/
def dotPin (d : Nat) : Nat := dotsPinmap.getD d 0

/-- `ledsPinmap[i]`. -/
def ledPin (i : Nat) : Nat := ledsPinmap.getD i 0

/-- Modulus of the C type `uint64_t`, the type of the serial stream. -/
def U64 : Nat := 2 ^ 64

/-- uint64 bitwise complement `~x`. -/
def compl64 (x : Nat) : Nat := (U64 - 1) ^^^ x

/-- `ledsMask = (1ull << ledsPinmap[0]) | (1ull << ledsPinmap[1])`. -/
def ledsMask : Nat := (1 <<< ledPin 0) ||| (1 <<< ledPin 1)

/-- `dotsMask`: or of the four dot bits, from `pins_IN12.h`. -/
def dotsMask : Nat :=
  (1 <<< dotPin 0) ||| (1 <<< dotPin 1) ||| (1 <<< dotPin 2) ||| (1 <<< dotPin 3)

/-- `digitsMask = ~(ledsMask | dotsMask)` — note: the uint64 *complement*,
exactly as written in `pins_IN12.h` line 26. -/
def digitsMask : Nat := compl64 (ledsMask ||| dotsMask)

/-! ## Display composition (`setDisplay`, main.cpp lines 259–295) -/

/-- The first three fields of TimeLib's `tmElements_t`, in declaration order
(`Second`, `Minute`, `Hour`), which is the order brace-initializers fill. -/
structure TmElements where
  Second : Nat
  Minute : Nat
  Hour : Nat
deriving Repr, DecidableEq

/-- The value `setDisplay(time, dots)` leaves in `displaySerialStream`
(main.cpp lines 262–284); the trailing `updateDisplay()` call is modelled
separately in the loop embedding. -/
def setDisplayStream (time : TmElements) (dots : Nat) : Nat :=
  let s0 : Nat := 0
  let s1 := s0 ||| (1 <<< digitPin 0 (time.Hour / 10))
  let s2 := s1 ||| (1 <<< digitPin 1 (time.Hour % 10))
  let s3 := s2 ||| (1 <<< digitPin 2 (time.Minute / 10))
  let s4 := s3 ||| (1 <<< digitPin 3 (time.Minute % 10))
  let s5 := (List.range numDigits).foldl
    (fun acc dot => if (dots >>> dot) &&& 1 ≠ 0 then acc ||| (1 <<< dotPin dot) else acc) s4
  if time.Second % 2 ≠ 0 then (s5 ||| (1 <<< ledPin 0)) ||| (1 <<< ledPin 1) else s5

/-! ## PWM refresher (`updateDisplay`, main.cpp lines 206–250) -/

/-- `maxBrightness = 50` (main.cpp line 57). -/
def maxBrightness : Nat := 50

/-- `lowBrightness = (maxBrightness / 10) * 2` (main.cpp line 60). -/
def lowBrightness : Nat := (maxBrightness / 10) * 2

/-- `beginLowBrightnessHour = 21` (main.cpp line 63). -/
def beginLowBrightnessHour : Nat := 21

/-- `endLowBrightnessHour = 6` (main.cpp line 66). -/
def endLowBrightnessHour : Nat := 6

/-- The two `static uint8_t` counters local to `updateDisplay`. -/
structure PwmState where
  digitPwmCounter : Nat
  ledPwmCounter : Nat
deriving Repr, DecidableEq

/-- One invocation of `updateDisplay` (main.cpp lines 206–250): computes the
masked stream that is shifted out this cycle and advances both counters.
Returns `(emitted stream, new counters)`; the GPIO shift-out of the emitted
stream is modelled by `emittedBits`/`chainLoad` below. -/
def updateDisplayTick (displaySerialStream digitBrightness ledBrightness : Nat)
    (st : PwmState) : Nat × PwmState :=
  let masked0 := displaySerialStream
  let masked1 := if st.digitPwmCounter ≥ digitBrightness
                 then masked0 &&& compl64 digitsMask else masked0
  let digitCtr := (st.digitPwmCounter + 1) % (maxBrightness + 1)
  let masked2 := if st.ledPwmCounter ≥ ledBrightness
                 then masked1 &&& compl64 ledsMask else masked1
  let ledCtr := (st.ledPwmCounter + 1) % (maxBrightness + 1)
  (masked2, ⟨digitCtr, ledCtr⟩)

/-- `n` successive `updateDisplay` invocations with the stream and both
brightness values held constant; returns the emitted streams in order. -/
def tickRun (frame db lb : Nat) : Nat → PwmState → List Nat
  | 0, _ => []
  | n + 1, st =>
    let (e, st') := updateDisplayTick frame db lb st
    e :: tickRun frame db lb n st'

/-! ## Shift-out protocol and register chain (main.cpp lines 231–250) -/

/-- Arduino `shiftOut(dataPin, clockPin, MSBFIRST, val)`: the eight bits put
on the data line, one clock pulse each, most significant bit first. -/
def shiftOutBits (val : Nat) : List Bool :=
  (List.range 8).map (fun i => val.testBit (7 - i))

/-- The complete 48-bit data-line sequence of one emission: for `chip` from
`numChips - 1` down to `0`, the byte `(frame >> (chip * 8)) & 0xFF` MSB first
(main.cpp lines 236–246). -/
def emittedBits (frame : Nat) : List Bool :=
  ((List.range numChips).reverse).flatMap
    (fun chip => shiftOutBits ((frame >>> (chip * 8)) &&& 0xFF))

/-- One clock pulse of the cascaded 48-stage shift-register chain: every
stage takes its predecessor's bit, stage 0 takes the data line; index `k` of
the list is physical output `k`. -/
def chainStep (stages : List Bool) (d : Bool) : List Bool :=
  (d :: stages).take 48

/-- Feed a bit sequence (temporal order) into the cleared chain. -/
def chainLoad (bits : List Bool) : List Bool :=
  bits.foldl chainStep (List.replicate 48 false)

/-! ## Timezone lease fetch (`getTzInfo`, main.cpp lines 100–152) -/

/-- The `TzInfo` struct (main.cpp lines 31–47). -/
structure TzInfo where
  dstInEffect : Bool
  offset : Int
  validUntil : Nat
deriving Repr, DecidableEq

/-- The three fields of the timezonedb JSON response that the code reads.
`none` models a key that is absent from the parsed document; ArduinoJson
yields the type's default (`0`, and a string that is not `"1"`) for those. -/
structure JsonDoc where
  dst : Option String
  gmtOffset : Option Int
  zoneEnd : Option Nat
deriving Repr, DecidableEq

/-- The document `deserializeJson` leaves behind on a parse error: empty. -/
def emptyJsonDoc : JsonDoc := ⟨none, none, none⟩

/-- Outcome of `http.GET()` plus the parse of `http.getString()`:
`parse = none` models a body that `deserializeJson` rejects. -/
structure HttpResponse where
  status : Int
  parse : Option JsonDoc
deriving Repr, DecidableEq

/-- `document["dst"].as<String>().equals("1")` (main.cpp line 141). -/
def jsonDstIsOne (d : JsonDoc) : Bool :=
  match d.dst with
  | some s => s = "1"
  | none => false

/-- `getTzInfo` (main.cpp lines 100–152).  The WiFi status and the HTTP
exchange are oracles; the function returns the C return value together with
the contents of `*out` after the call.  Note the source discards the return
value of `deserializeJson` (line 132) and falls through to the field
assignments and `return true`. -/
def getTzInfo (wifiConnected : Bool) (resp : HttpResponse) (out : TzInfo) :
    Bool × TzInfo :=
  if ¬ wifiConnected then (false, out)
  else if resp.status ≠ 200 then (false, out)
  else
    let document := resp.parse.getD emptyJsonDoc
    (true,
     { dstInEffect := jsonDstIsOne document
       offset := document.gmtOffset.getD 0
       validUntil := document.zoneEnd.getD 0 })

/-- `updateTimeZoneInfo` (main.cpp lines 162–198): `none` models the failure
path (`delay(5000); ESP.restart()`), `some tz` the success path with the new
lease (the `NTP.setTimeZone` call is an external side effect). -/
def updateTimeZoneInfo (wifi : Bool) (resp : HttpResponse) (tz : TzInfo) :
    Option TzInfo :=
  match getTzInfo wifi resp tz with
  | (false, _) => none
  | (true, tz') => some tz'

/-! ## Main loop (`loop`, main.cpp lines 388–460) -/

/-- TimeLib `breakTime`, restricted to the fields the sketch reads:
`Second = t % 60`, `Minute = (t / 60) % 60`, `Hour = (t / 3600) % 24`. -/
def breakTime (t : Nat) : TmElements :=
  ⟨t % 60, (t / 60) % 60, (t / 3600) % 24⟩

/-- The globals touched by one `loop` iteration. -/
structure ClockState where
  tzInfo : TzInfo
  digitBrightness : Nat
  ledBrightness : Nat
  lastUpdate : Nat
  displaySerialStream : Nat
  pwm : PwmState
deriving Repr, DecidableEq

/-- Result of one `loop` iteration: either `ESP.restart()` was reached after
a `delay(delayMs)`, or the iteration finished with the new globals, the list
of streams emitted during it, and a flag recording whether
`updateTimeZoneInfo` was invoked. -/
inductive LoopOutcome where
  | reboot (delayMs : Nat)
  | ok (st : ClockState) (emissions : List Nat) (renewInvoked : Bool)
deriving Repr, DecidableEq

/-- Whether `updateTimeZoneInfo` ran during the iteration (a reboot can only
be reached through it). -/
def LoopOutcome.renewFlag : LoopOutcome → Bool
  | .reboot _ => true
  | .ok _ _ r => r

/-- `true` iff the iteration ended in `ESP.restart()`. -/
def LoopOutcome.isReboot : LoopOutcome → Bool
  | .reboot _ => true
  | .ok _ _ _ => false

/-- Final globals of a completed iteration. -/
def LoopOutcome.finalState : LoopOutcome → Option ClockState
  | .reboot _ => none
  | .ok st _ _ => some st

/-- The tail of a whole-second update (main.cpp lines 434–452 plus the
unconditional `updateDisplay()` at line 459): publish
`setDisplay(breakTime(currentTime))`, record `lastUpdate`, apply the
brightness policy, and run the final PWM tick. -/
def publishAndPolicy (st : ClockState) (currentTime : Nat) :
    ClockState × List Nat :=
  let te := breakTime currentTime
  let stream := setDisplayStream te 0
  let (e2, pwm2) := updateDisplayTick stream st.digitBrightness st.ledBrightness st.pwm
  let st1 : ClockState :=
    { st with displaySerialStream := stream, pwm := pwm2, lastUpdate := currentTime }
  let st2 : ClockState :=
    if te.Hour ≥ beginLowBrightnessHour ∨ te.Hour < endLowBrightnessHour
    then { st1 with digitBrightness := lowBrightness, ledBrightness := lowBrightness }
    else { st1 with digitBrightness := maxBrightness, ledBrightness := maxBrightness }
  let (e3, pwm3) := updateDisplayTick st2.displaySerialStream st2.digitBrightness
      st2.ledBrightness st2.pwm
  ({ st2 with pwm := pwm3 }, [e2, e3])

/-- One iteration of `loop` (main.cpp lines 388–460).  `currentTime` is the
value `now()` returned; `wifi` and `resp` are the oracles consumed by
`getTzInfo` if a renewal is attempted. -/
def loopIter (st0 : ClockState) (currentTime : Nat) (wifi : Bool)
    (resp : HttpResponse) : LoopOutcome :=
  if currentTime = st0.lastUpdate then
    let (e, pwm') := updateDisplayTick st0.displaySerialStream st0.digitBrightness
        st0.ledBrightness st0.pwm
    .ok { st0 with pwm := pwm' } [e] false
  else
    let st1 : ClockState :=
      { st0 with digitBrightness := maxBrightness, ledBrightness := maxBrightness }
    let (e1, pwm1) := updateDisplayTick st1.displaySerialStream maxBrightness
        maxBrightness st1.pwm
    let st1 : ClockState := { st1 with pwm := pwm1 }
    if st1.tzInfo.validUntil < currentTime then
      match updateTimeZoneInfo wifi resp st1.tzInfo with
      | none => .reboot 5000
      | some tz =>
        let (st3, es) := publishAndPolicy { st1 with tzInfo := tz } currentTime
        .ok st3 (e1 :: es) true
    else
      let (st3, es) := publishAndPolicy st1 currentTime
      .ok st3 (e1 :: es) false

/-! ## Provisioning animation (`displayPasscode`, main.cpp lines 297–319) -/

/-- The two `static` variables of `displayPasscode`. -/
structure PasscodeAnim where
  currentDot : Nat
  direction : Bool
deriving Repr, DecidableEq

/-- Initial values of the statics: `currentDot = 0`, `direction = true`. -/
def passcodeAnimInit : PasscodeAnim := ⟨0, true⟩

/-- `c - '0'` for a passcode character. -/
def digitOfChar (c : Char) : Nat := c.toNat - 48

/-- One invocation of `displayPasscode` (main.cpp lines 297–319) on passcode
characters `pass`: returns the new statics together with the
`(passcodeTime, dotState)` arguments it hands to `setDisplay`.  `currentDot`
is a `uint8_t`, hence the mod-256 arithmetic. -/
def displayPasscodeStep (pass : List Char) (st : PasscodeAnim) :
    PasscodeAnim × (TmElements × Nat) :=
  let currentDot := if st.direction then (st.currentDot + 1) % 256
                    else (st.currentDot + 255) % 256
  let direction := if currentDot = numDigits - 1 ∨ currentDot = 0
                   then !st.direction else st.direction
  let passcodeTime : TmElements :=
    ⟨0,
     digitOfChar (pass.getD 2 ' ') * 10 + digitOfChar (pass.getD 3 ' '),
     digitOfChar (pass.getD 0 ' ') * 10 + digitOfChar (pass.getD 1 ' ')⟩
  let dotState := 1 <<< currentDot
  (⟨currentDot, direction⟩, (passcodeTime, dotState))

/-- The statics after `n` invocations. -/
def passcodeAnimState (pass : List Char) (n : Nat) : PasscodeAnim :=
  (fun st => (displayPasscodeStep pass st).1)^[n] passcodeAnimInit

/-- The `(time, dots)` display arguments of invocation `n` (0-based). -/
def passcodeDisplay (pass : List Char) (n : Nat) : TmElements × Nat :=
  (displayPasscodeStep pass (passcodeAnimState pass n)).2

/-- Modelled from the spec: the mask of "exactly the bit positions appearing
in `digitsPinmap`" that the spec says `digitsMask` equals; built for
comparison with the source's `digitsMask`. -/
def specDigitsMask : Nat :=
  (digitsPinmap.flatMap id).foldl (fun acc p => acc ||| (1 <<< p)) 0

/-- The or of the four digit bits selected by numeral values `a b c d`
(the four `displaySerialStream |=` lines of `setDisplay`). -/
def digitOr (a b c d : Nat) : Nat :=
  (((1 <<< digitPin 0 a) ||| (1 <<< digitPin 1 b)) ||| (1 <<< digitPin 2 c))
    ||| (1 <<< digitPin 3 d)

/-- The or of the dot bits selected by `dots` (the dot loop of `setDisplay`). -/
def dotOr (dots : Nat) : Nat :=
  (((if (dots >>> 0) &&& 1 ≠ 0 then 1 <<< dotPin 0 else 0) |||
    (if (dots >>> 1) &&& 1 ≠ 0 then 1 <<< dotPin 1 else 0)) |||
   (if (dots >>> 2) &&& 1 ≠ 0 then 1 <<< dotPin 2 else 0)) |||
  (if (dots >>> 3) &&& 1 ≠ 0 then 1 <<< dotPin 3 else 0)

/-- The or of the colon bits when `s` is odd (the colon branch of
`setDisplay`). -/
def ledOr (s : Nat) : Nat :=
  if s % 2 ≠ 0 then (1 <<< ledPin 0) ||| (1 <<< ledPin 1) else 0

/-- The frame well-formedness property of claim C3, for a frame `f` built
from numerals `a b c d` (hour tens/ones, minute tens/ones), second `s` and
dot mask `dots`: the bits of `f` inside `digitsMask` are exactly the four
pairwise-distinct pinmap bits; each dot bit is lit iff the matching `dots`
bit is; both colon bits are lit iff `s` is odd; and no bit lies outside the
union of the three masks. -/
def C3Core (f a b c d s dots : Nat) : Prop :=
  (f &&& digitsMask =
    (((1 <<< digitPin 0 a) ||| (1 <<< digitPin 1 b)) ||| (1 <<< digitPin 2 c))
      ||| (1 <<< digitPin 3 d)) ∧
  (digitPin 0 a ≠ digitPin 1 b ∧ digitPin 0 a ≠ digitPin 2 c ∧
   digitPin 0 a ≠ digitPin 3 d ∧ digitPin 1 b ≠ digitPin 2 c ∧
   digitPin 1 b ≠ digitPin 3 d ∧ digitPin 2 c ≠ digitPin 3 d) ∧
  (∀ i < numDigits, f.testBit (dotPin i) = dots.testBit i) ∧
  (f.testBit (ledPin 0) = decide (s % 2 = 1) ∧
   f.testBit (ledPin 1) = decide (s % 2 = 1)) ∧
  f &&& compl64 (digitsMask ||| dotsMask ||| ledsMask) = 0

/-! ## Helper lemmas on the frame composer -/

/-- `setDisplayStream` decomposes into the or of its digit, dot and colon
contributions. -/
theorem setDisplayStream_decomp (t : TmElements) (dots : Nat) :
    setDisplayStream t dots =
      digitOr (t.Hour / 10) (t.Hour % 10) (t.Minute / 10) (t.Minute % 10)
        ||| dotOr dots ||| ledOr t.Second := by
  by_cases h0 : dots % 2 = 1 <;> by_cases h1 : dots >>> 1 % 2 = 1 <;>
  by_cases h2 : dots >>> 2 % 2 = 1 <;> by_cases h3 : dots >>> 3 % 2 = 1 <;>
  by_cases hp : t.Second % 2 ≠ 0 <;>
    simp [setDisplayStream, digitOr, dotOr, ledOr, h0, h1, h2, h3, hp, numDigits,
      List.range_succ, Nat.or_assoc]

set_option maxRecDepth 100000 in
set_option maxHeartbeats 2000000 in
set_option synthInstance.maxSize 4000 in
set_option synthInstance.maxHeartbeats 1000000 in
/-- For every in-range numeral choice, the digit contribution lies inside
`digitsMask`, its four bit positions are pairwise distinct, and it touches
no dot or colon bit. -/
theorem digit_facts : ∀ a < 3, ∀ b < 10, ∀ c < 6, ∀ d < 10,
    (digitOr a b c d &&& digitsMask = digitOr a b c d) ∧
    ((digitPin 0 a ≠ digitPin 1 b) ∧ (digitPin 0 a ≠ digitPin 2 c) ∧
     (digitPin 0 a ≠ digitPin 3 d) ∧ (digitPin 1 b ≠ digitPin 2 c) ∧
     (digitPin 1 b ≠ digitPin 3 d) ∧ (digitPin 2 c ≠ digitPin 3 d)) ∧
    (∀ i < numDigits, (digitOr a b c d).testBit (dotPin i) = false) ∧
    ((digitOr a b c d).testBit (ledPin 0) = false) ∧
    ((digitOr a b c d).testBit (ledPin 1) = false) := by decide

set_option synthInstance.maxSize 4000 in
/-- The dot contribution avoids `digitsMask` and the colon bits, and carries
bit `i` of `dots` at `dotPin i`. -/
theorem dot_facts : ∀ dots < 16,
    (dotOr dots &&& digitsMask = 0) ∧
    (∀ i < numDigits, (dotOr dots).testBit (dotPin i) = dots.testBit i) ∧
    ((dotOr dots).testBit (ledPin 0) = false) ∧
    ((dotOr dots).testBit (ledPin 1) = false) := by decide

set_option synthInstance.maxSize 4000 in
/-- The colon contribution avoids `digitsMask` and the dot bits, and lights
both colon bits exactly when the second is odd. -/
theorem led_facts : ∀ p < 2,
    (ledOr p &&& digitsMask = 0) ∧
    (∀ i < numDigits, (ledOr p).testBit (dotPin i) = false) ∧
    ((ledOr p).testBit (ledPin 0) = decide (p % 2 ≠ 0)) ∧
    ((ledOr p).testBit (ledPin 1) = decide (p % 2 ≠ 0)) := by decide

/-- The colon contribution only depends on the parity of the second. -/
theorem ledOr_mod (s : Nat) : ledOr s = ledOr (s % 2) := by
  unfold ledOr
  have h : s % 2 % 2 = s % 2 := Nat.mod_mod_of_dvd s dvd_rfl
  rw [h]

/-! ## Claim C3 — frame well-formedness -/

/-- Claim C3: for every logical display state with hour in 0..23, minute in
0..59, second in 0..59 and dot mask in 0..15, the composed frame sets
exactly four (pairwise-distinct) bits inside `digitsMask`, namely
`digitsPinmap[0][hour/10]`, `digitsPinmap[1][hour%10]`,
`digitsPinmap[2][minute/10]`, `digitsPinmap[3][minute%10]`; sets
`dotsPinmap[i]` iff bit `i` of the dot mask is set; sets both colon bits iff
the second is odd and neither otherwise; and sets no bit outside the union
of the three masks. -/
theorem compose_frame_wellformed (h m s dots : Nat) (hh : h < 24)
    (hm : m < 60) (hs : s < 60) (hd : dots < 16) :
    C3Core (setDisplayStream ⟨s, m, h⟩ dots)
      (h / 10) (h % 10) (m / 10) (m % 10) s dots := by
  have hdec := setDisplayStream_decomp ⟨s, m, h⟩ dots
  simp only at hdec
  obtain ⟨hD1, hD2, hD3, hD4, hD5⟩ :=
    digit_facts (h / 10) (by omega) (h % 10) (by omega) (m / 10) (by omega)
      (m % 10) (by omega)
  obtain ⟨hq1, hq2, hq3, hq4⟩ := dot_facts dots hd
  obtain ⟨hl1, hl3, hl4, hl5⟩ := led_facts (s % 2) (by omega)
  have hl2 : ledOr s = ledOr (s % 2) := ledOr_mod s
  have hiff : (s % 2 % 2 ≠ 0) ↔ (s % 2 = 1) := by omega
  have hz : compl64 (digitsMask ||| dotsMask ||| ledsMask) = 0 := by decide
  refine ⟨?_, hD2, ?_, ⟨?_, ?_⟩, ?_⟩
  · rw [hdec, hl2, Nat.and_distrib_right, Nat.and_distrib_right, hD1, hq1, hl1]
    simp only [Nat.or_zero]
    rfl
  · intro i hi
    rw [hdec, hl2, Nat.testBit_or, Nat.testBit_or, hD3 i hi, hq2 i hi, hl3 i hi]
    simp
  · rw [hdec, hl2, Nat.testBit_or, Nat.testBit_or, hD4, hq3, hl4]
    simp [hiff]
  · rw [hdec, hl2, Nat.testBit_or, Nat.testBit_or, hD5, hq4, hl5]
    simp [hiff]
  · rw [hz, Nat.and_zero]

/-- Claim C3 witness: the spec's scenario 1, composing 07:05:02 with no
dots. -/
theorem compose_frame_wellformed_witness :
    (7 : Nat) < 24 ∧ (5 : Nat) < 60 ∧ (2 : Nat) < 60 ∧ (0 : Nat) < 16 ∧
    C3Core (setDisplayStream ⟨2, 5, 7⟩ 0) 0 7 0 5 2 0 :=
  ⟨by decide, by decide, by decide, by decide,
   compose_frame_wellformed 7 5 2 0 (by decide) (by decide) (by decide) (by decide)⟩

/-! ## Claim C5 — mask structure -/

/-- Claim C5 counterexample: `digitsMask` is not the set of the 40 bit
positions of `digitsPinmap`: the source computes it as the uint64 complement
of `ledsMask ||| dotsMask`, so e.g. bit 46 (unused by any pin) is inside
`digitsMask`, and `digitsMask` has 58 set bits, not 40. -/
theorem digitsMask_cex :
    digitsMask ≠ specDigitsMask ∧
    Nat.testBit digitsMask 46 = true ∧
    Nat.testBit specDigitsMask 46 = false ∧
    (List.range 64).countP (fun k => Nat.testBit digitsMask k) = 58 ∧
    (List.range 64).countP (fun k => Nat.testBit specDigitsMask k) = 40 := by
  decide

/-- Claim C5 (amended): `digitsMask` is the uint64 complement of
`ledsMask ||| dotsMask` (58 bits), a strict superset of the 40
`digitsPinmap` bits; the three masks are pairwise disjoint and their union
covers all 64 stream bits (hence every bit any display operation uses);
within each digit row the ten numeral bit indices are distinct, and every
bit index is unique across the whole pin map. -/
theorem pinmap_masks_amended :
    digitsMask = compl64 (ledsMask ||| dotsMask) ∧
    specDigitsMask &&& digitsMask = specDigitsMask ∧
    digitsMask &&& dotsMask = 0 ∧
    digitsMask &&& ledsMask = 0 ∧
    dotsMask &&& ledsMask = 0 ∧
    (digitsMask ||| dotsMask ||| ledsMask) = U64 - 1 ∧
    (∀ row ∈ digitsPinmap, List.Pairwise (fun x y => x ≠ y) row) ∧
    List.Pairwise (fun x y => x ≠ y)
      (digitsPinmap.flatMap id ++ dotsPinmap ++ ledsPinmap) := by
  decide

/-! ## Claim C2 — JSON parse failure handling -/

/-- Claim C2 counterexample: with WiFi up and HTTP status 200 but an
unparseable body, `getTzInfo` does **not** fail like a non-200 response: the
source discards the return value of `deserializeJson`, commits the default
field values read from the empty document, and returns `true`; consequently
`updateTimeZoneInfo` takes the success path (no 5-second-delay reboot). -/
theorem getTzInfo_parse_failure_cex :
    (getTzInfo true ⟨200, none⟩ ⟨true, 123, 999⟩).1 = true ∧
    (getTzInfo true ⟨200, none⟩ ⟨true, 123, 999⟩).2 = ⟨false, 0, 0⟩ ∧
    updateTimeZoneInfo true ⟨200, none⟩ ⟨true, 123, 999⟩ = some ⟨false, 0, 0⟩ := by
  decide

/-- Claim C2 (amended): if the HTTP GET returns status 200 but the JSON body
fails to parse, `getTzInfo` ignores the parse error and returns success,
overwriting the lease with the defaults obtained from the empty document
(`dstInEffect = false`, `offset = 0`, `validUntil = 0`); the failure does
not escalate to the 5-second-delay reboot. -/
theorem getTzInfo_parse_failure_amended (out : TzInfo) :
    (getTzInfo true ⟨200, none⟩ out).1 = true ∧
    (getTzInfo true ⟨200, none⟩ out).2 = ⟨false, 0, 0⟩ ∧
    updateTimeZoneInfo true ⟨200, none⟩ out = some ⟨false, 0, 0⟩ :=
  ⟨rfl, rfl, rfl⟩

/-! ## Claim C10 — failure atomicity of `getTzInfo` -/

/-- Claim C10: whenever `getTzInfo` returns `false` (WiFi down, or HTTP
status different from 200), the `TzInfo` record passed in is returned
completely unchanged; its fields are assigned only on the `true` path. -/
theorem getTzInfo_failure_atomic (wifi : Bool) (resp : HttpResponse)
    (out : TzInfo) (h : (getTzInfo wifi resp out).1 = false) :
    (getTzInfo wifi resp out).2 = out := by
  by_cases hw : wifi
  · by_cases hs : resp.status = 200
    · simp [getTzInfo, hw, hs] at h
    · simp [getTzInfo, hw, hs]
  · simp [getTzInfo, hw]

/-- Claim C10 witness: WiFi down, a well-formed 200 response, and a
populated record: the call fails and leaves the record untouched. -/
theorem getTzInfo_failure_atomic_witness :
    (getTzInfo false ⟨200, some ⟨some "1", some 3600, some 99⟩⟩ ⟨true, 5, 7⟩).1 = false ∧
    (getTzInfo false ⟨200, some ⟨some "1", some 3600, some 99⟩⟩ ⟨true, 5, 7⟩).2 = ⟨true, 5, 7⟩ :=
  ⟨by decide, getTzInfo_failure_atomic false ⟨200, some ⟨some "1", some 3600, some 99⟩⟩
    ⟨true, 5, 7⟩ (by decide)⟩

/-! ## Claim C6 — dot bits and the digit PWM phase -/

/-- Claim C6 counterexample: a tick in which the digit PWM counter has
reached `digitBrightness` (counter 0, brightness 0) emits a frame with the
digit bits cleared but the dot bit still lit: because
`digitsMask = ~(ledsMask | dotsMask)`, the masking `&= ~digitsMask` keeps
exactly the led and dot bits, so dots do not share the digit PWM phase. -/
theorem dots_pwm_cex :
    ((updateDisplayTick (setDisplayStream ⟨0, 0, 0⟩ 1) 0 50 ⟨0, 0⟩).1 &&& digitsMask = 0) ∧
    ((updateDisplayTick (setDisplayStream ⟨0, 0, 0⟩ 1) 0 50 ⟨0, 0⟩).1 &&& dotsMask
      = 1 <<< dotPin 0) ∧
    ((1 : Nat) <<< dotPin 0 ≠ 0) := by
  decide

/-- Claim C6 (amended): dot bits are never PWM-masked: every `tick()`
emission carries exactly the frame's dot bits, whatever the PWM counters and
brightness values are; a dot bit is lit in an emission iff it is set in the
frame. -/
theorem dots_never_masked (frame db lb : Nat) (st : PwmState) :
    (updateDisplayTick frame db lb st).1 &&& dotsMask = frame &&& dotsMask := by
  have h1 : compl64 digitsMask &&& dotsMask = dotsMask := by decide
  have h2 : compl64 ledsMask &&& dotsMask = dotsMask := by decide
  by_cases hd : st.digitPwmCounter ≥ db <;> by_cases hl : st.ledPwmCounter ≥ lb <;>
    simp [updateDisplayTick, hd, hl, Nat.land_assoc, h1, h2]

/-! ## Claim C7 — provisioning animation -/

/-- Claim C7 counterexample: the first 500 ms invocation displays dot mask
`0b0010`, not `0b0001`: `displayPasscode` increments `currentDot` before
using it, so the walk starts at position 1. -/
theorem passcode_first_dot_cex :
    (passcodeDisplay "0427".toList 0).2 = 2 ∧ (2 : Nat) ≠ 1 := by
  decide

/-- Claim C7 (amended): for passcode "0427" every invocation displays
hour = 04, minute = 27, colon off (second even), and the dot mask sequence
from the first invocation onward is `0b0010, 0b0100, 0b1000, 0b0100,
0b0010, 0b0001`, repeating with period 6 (the dot walks 1→2→3→2→1→0→1→…,
reversing at positions 3 and 0). -/
theorem passcode_animation_amended :
    (∀ n, (passcodeDisplay "0427".toList n).1 = ⟨0, 27, 4⟩) ∧
    (List.range 8).map (fun n => (passcodeDisplay "0427".toList n).2)
      = [2, 4, 8, 4, 2, 1, 2, 4] ∧
    (∀ n, passcodeDisplay "0427".toList (n + 6) = passcodeDisplay "0427".toList n) := by
  refine ⟨fun n => rfl, by decide, fun n => ?_⟩
  have hper : passcodeAnimState "0427".toList 6 = passcodeAnimInit := by decide
  have hst : passcodeAnimState "0427".toList (n + 6)
      = passcodeAnimState "0427".toList n := by
    unfold passcodeAnimState
    rw [Function.iterate_add_apply]
    exact congrArg _ hper
  unfold passcodeDisplay
  rw [hst]

/-! ## Helper lemmas on the PWM refresher -/

/-- The digit-bit content of one emission: cleared exactly when the digit
counter has reached the digit brightness (independent of the led masking,
since `~ledsMask` contains every `digitsMask` bit). -/
theorem tick_digit_emission (frame db lb : Nat) (st : PwmState) :
    (updateDisplayTick frame db lb st).1 &&& digitsMask =
      if st.digitPwmCounter ≥ db then 0 else frame &&& digitsMask := by
  have mA : compl64 digitsMask &&& digitsMask = 0 := by decide
  have mB : compl64 ledsMask &&& digitsMask = digitsMask := by decide
  by_cases hd : st.digitPwmCounter ≥ db <;> by_cases hl : st.ledPwmCounter ≥ lb <;>
    simp [updateDisplayTick, hd, hl, Nat.and_assoc, mA, mB]

/-- The colon-bit content of one emission: cleared exactly when the led
counter has reached the led brightness. -/
theorem tick_led_emission (frame db lb : Nat) (st : PwmState) :
    (updateDisplayTick frame db lb st).1 &&& ledsMask =
      if st.ledPwmCounter ≥ lb then 0 else frame &&& ledsMask := by
  have mC : compl64 digitsMask &&& ledsMask = ledsMask := by decide
  have mD : compl64 ledsMask &&& ledsMask = 0 := by decide
  by_cases hd : st.digitPwmCounter ≥ db <;> by_cases hl : st.ledPwmCounter ≥ lb <;>
    simp [updateDisplayTick, hd, hl, Nat.and_assoc, mC, mD]

/-- Over one PWM period the counter values `(c + i) % 51` are a permutation
of `0..50`. -/
theorem range51_mod_perm (c : Nat) :
    List.Perm ((List.range 51).map (fun i => (c + i) % 51)) (List.range 51) := by
  have hnd : ((List.range 51).map (fun i => (c + i) % 51)).Nodup := by
    refine List.Nodup.map_on ?_ (List.nodup_range 51)
    intro x hx y hy hxy
    rw [List.mem_range] at hx hy
    omega
  have hsub : ((List.range 51).map (fun i => (c + i) % 51)) ⊆ List.range 51 := by
    intro x hx
    rw [List.mem_map] at hx
    obtain ⟨i, _, rfl⟩ := hx
    rw [List.mem_range]
    omega
  refine (List.subperm_of_subset hnd hsub).perm_of_length_le ?_
  simp

/-- Counting values below `db` in `0..50`. -/
theorem range51_countP_lt : ∀ db ≤ 51,
    (List.range 51).countP (fun x => decide (x < db)) = db := by decide

/-- Counting values at least `db` in `0..50`. -/
theorem range51_countP_ge : ∀ db ≤ 51,
    (List.range 51).countP (fun x => decide (x ≥ db)) = 51 - db := by decide

/-- Over one PWM period, `db` of the 51 rotated counter values lie below
`db`. -/
theorem range51_mod_count_lt (c db : Nat) (hdb : db ≤ 51) :
    (List.range 51).countP (fun i => decide ((c + i) % 51 < db)) = db := by
  have h1 : (List.range 51).countP (fun i => decide ((c + i) % 51 < db))
      = ((List.range 51).map (fun i => (c + i) % 51)).countP
          (fun x => decide (x < db)) := by
    rw [List.countP_map]
    rfl
  rw [h1, List.Perm.countP_eq (fun x => decide (x < db)) (range51_mod_perm c),
    range51_countP_lt db hdb]

/-- Over one PWM period, `51 - db` of the rotated counter values reach
`db`. -/
theorem range51_mod_count_ge (c db : Nat) (hdb : db ≤ 51) :
    (List.range 51).countP (fun i => decide ((c + i) % 51 ≥ db)) = 51 - db := by
  have h1 : (List.range 51).countP (fun i => decide ((c + i) % 51 ≥ db))
      = ((List.range 51).map (fun i => (c + i) % 51)).countP
          (fun x => decide (x ≥ db)) := by
    rw [List.countP_map]
    rfl
  rw [h1, List.Perm.countP_eq (fun x => decide (x ≥ db)) (range51_mod_perm c),
    range51_countP_ge db hdb]

/-- Unfolding one step of `tickRun`. -/
theorem tickRun_succ (frame db lb : Nat) (n c1 c2 : Nat) :
    tickRun frame db lb (n + 1) ⟨c1, c2⟩ =
      (updateDisplayTick frame db lb ⟨c1, c2⟩).1 ::
        tickRun frame db lb n ⟨(c1 + 1) % 51, (c2 + 1) % 51⟩ := rfl

/-- Emissions with lit digit bits during a run, counted by the counter
values that stay below the digit brightness. -/
theorem tickRun_digit_count (frame db lb : Nat) (hf : frame &&& digitsMask ≠ 0) :
    ∀ n c1 c2, c1 < 51 →
      (tickRun frame db lb n ⟨c1, c2⟩).countP
          (fun e => decide (e &&& digitsMask ≠ 0)) =
      (List.range n).countP (fun i => decide ((c1 + i) % 51 < db)) := by
  intro n
  induction n with
  | zero => intro c1 c2 hc1; simp [tickRun]
  | succ n ih =>
    intro c1 c2 hc1
    rw [tickRun_succ, List.countP_cons,
      ih ((c1 + 1) % 51) ((c2 + 1) % 51) (Nat.mod_lt _ (by omega)),
      List.range_succ_eq_map, List.countP_cons, List.countP_map]
    have hhead : (decide ((updateDisplayTick frame db lb ⟨c1, c2⟩).1 &&& digitsMask ≠ 0))
        = decide ((c1 + 0) % 51 < db) := by
      rw [tick_digit_emission]
      have hc : (c1 + 0) % 51 = c1 := by omega
      rw [hc]
      by_cases hd : c1 ≥ db
      · simp only [ge_iff_le] at hd
        simp [hd, Nat.not_lt.mpr hd]
      · simp only [ge_iff_le] at hd
        simp [hd, hf, Nat.lt_of_not_le hd]
    have htail : (List.range n).countP
          (fun i => decide (((c1 + 1) % 51 + i) % 51 < db))
        = (List.range n).countP
          ((fun i => decide ((c1 + i) % 51 < db)) ∘ Nat.succ) := by
      apply List.countP_congr
      intro x _
      simp only [Function.comp, decide_eq_true_eq]
      omega
    rw [hhead, htail]

/-- Emissions with dark digit bits during a run. -/
theorem tickRun_digit_dark_count (frame db lb : Nat)
    (hf : frame &&& digitsMask ≠ 0) :
    ∀ n c1 c2, c1 < 51 →
      (tickRun frame db lb n ⟨c1, c2⟩).countP
          (fun e => decide (e &&& digitsMask = 0)) =
      (List.range n).countP (fun i => decide ((c1 + i) % 51 ≥ db)) := by
  intro n
  induction n with
  | zero => intro c1 c2 hc1; simp [tickRun]
  | succ n ih =>
    intro c1 c2 hc1
    rw [tickRun_succ, List.countP_cons,
      ih ((c1 + 1) % 51) ((c2 + 1) % 51) (Nat.mod_lt _ (by omega)),
      List.range_succ_eq_map, List.countP_cons, List.countP_map]
    have hhead : (decide ((updateDisplayTick frame db lb ⟨c1, c2⟩).1 &&& digitsMask = 0))
        = decide ((c1 + 0) % 51 ≥ db) := by
      rw [tick_digit_emission]
      have hc : (c1 + 0) % 51 = c1 := by omega
      rw [hc]
      by_cases hd : c1 ≥ db
      · simp only [ge_iff_le] at hd
        simp [hd]
      · simp only [ge_iff_le] at hd
        simp [hd, hf]
    have htail : (List.range n).countP
          (fun i => decide (((c1 + 1) % 51 + i) % 51 ≥ db))
        = (List.range n).countP
          ((fun i => decide ((c1 + i) % 51 ≥ db)) ∘ Nat.succ) := by
      apply List.countP_congr
      intro x _
      simp only [Function.comp, decide_eq_true_eq]
      omega
    rw [hhead, htail]

/-- Emissions with lit colon bits during a run. -/
theorem tickRun_led_count (frame db lb : Nat) (hf : frame &&& ledsMask ≠ 0) :
    ∀ n c1 c2, c2 < 51 →
      (tickRun frame db lb n ⟨c1, c2⟩).countP
          (fun e => decide (e &&& ledsMask ≠ 0)) =
      (List.range n).countP (fun i => decide ((c2 + i) % 51 < lb)) := by
  intro n
  induction n with
  | zero => intro c1 c2 hc2; simp [tickRun]
  | succ n ih =>
    intro c1 c2 hc2
    rw [tickRun_succ, List.countP_cons,
      ih ((c1 + 1) % 51) ((c2 + 1) % 51) (Nat.mod_lt _ (by omega)),
      List.range_succ_eq_map, List.countP_cons, List.countP_map]
    have hhead : (decide ((updateDisplayTick frame db lb ⟨c1, c2⟩).1 &&& ledsMask ≠ 0))
        = decide ((c2 + 0) % 51 < lb) := by
      rw [tick_led_emission]
      have hc : (c2 + 0) % 51 = c2 := by omega
      rw [hc]
      by_cases hl : c2 ≥ lb
      · simp only [ge_iff_le] at hl
        simp [hl, Nat.not_lt.mpr hl]
      · simp only [ge_iff_le] at hl
        simp [hl, hf, Nat.lt_of_not_le hl]
    have htail : (List.range n).countP
          (fun i => decide (((c2 + 1) % 51 + i) % 51 < lb))
        = (List.range n).countP
          ((fun i => decide ((c2 + i) % 51 < lb)) ∘ Nat.succ) := by
      apply List.countP_congr
      intro x _
      simp only [Function.comp, decide_eq_true_eq]
      omega
    rw [hhead, htail]

/-! ## Claim C4 — PWM duty law -/

/-- Claim C4: over any full PWM period of `maxBrightness + 1` consecutive
`tick()` invocations with frame and brightness values held constant (and a
frame that actually has digit and colon content), exactly `digitBrightness`
of the emitted frames have the digit bits set, the remaining
`maxBrightness + 1 - digitBrightness` have them cleared, and exactly
`ledBrightness` of the emissions have the colon bits set. -/
theorem pwm_duty_law (frame db lb c1 c2 : Nat)
    (hdb : db ≤ maxBrightness) (hlb : lb ≤ maxBrightness)
    (hc1 : c1 ≤ maxBrightness) (hc2 : c2 ≤ maxBrightness)
    (hfd : frame &&& digitsMask ≠ 0) (hfl : frame &&& ledsMask ≠ 0) :
    (tickRun frame db lb (maxBrightness + 1) ⟨c1, c2⟩).countP
        (fun e => decide (e &&& digitsMask ≠ 0)) = db ∧
    (tickRun frame db lb (maxBrightness + 1) ⟨c1, c2⟩).countP
        (fun e => decide (e &&& digitsMask = 0)) = (maxBrightness + 1) - db ∧
    (tickRun frame db lb (maxBrightness + 1) ⟨c1, c2⟩).countP
        (fun e => decide (e &&& ledsMask ≠ 0)) = lb := by
  have hmb : maxBrightness = 50 := rfl
  refine ⟨?_, ?_, ?_⟩
  · rw [show maxBrightness + 1 = 51 from rfl,
      tickRun_digit_count frame db lb hfd 51 c1 c2 (by omega)]
    exact range51_mod_count_lt c1 db (by omega)
  · rw [show maxBrightness + 1 = 51 from rfl,
      tickRun_digit_dark_count frame db lb hfd 51 c1 c2 (by omega)]
    rw [range51_mod_count_ge c1 db (by omega)]
  · rw [show maxBrightness + 1 = 51 from rfl,
      tickRun_led_count frame db lb hfl 51 c1 c2 (by omega)]
    exact range51_mod_count_lt c2 lb (by omega)

/-- Claim C4 witness: the spec's scenario 3, `digitBrightness = 25`,
counters starting at 0 with the frame 12:30:01 (colon lit): 51 ticks yield
exactly 25 lit and 26 dark digit emissions, and 25 lit colon emissions. -/
theorem pwm_duty_law_witness :
    ((25 : Nat) ≤ maxBrightness) ∧
    (setDisplayStream ⟨1, 30, 12⟩ 0 &&& digitsMask ≠ 0) ∧
    (setDisplayStream ⟨1, 30, 12⟩ 0 &&& ledsMask ≠ 0) ∧
    (tickRun (setDisplayStream ⟨1, 30, 12⟩ 0) 25 25 (maxBrightness + 1) ⟨0, 0⟩).countP
        (fun e => decide (e &&& digitsMask ≠ 0)) = 25 ∧
    (tickRun (setDisplayStream ⟨1, 30, 12⟩ 0) 25 25 (maxBrightness + 1) ⟨0, 0⟩).countP
        (fun e => decide (e &&& digitsMask = 0)) = 26 ∧
    (tickRun (setDisplayStream ⟨1, 30, 12⟩ 0) 25 25 (maxBrightness + 1) ⟨0, 0⟩).countP
        (fun e => decide (e &&& ledsMask ≠ 0)) = 25 := by
  obtain ⟨h1, h2, h3⟩ := pwm_duty_law (setDisplayStream ⟨1, 30, 12⟩ 0) 25 25 0 0
    (by decide) (by decide) (by decide) (by decide) (by decide) (by decide)
  exact ⟨by decide, by decide, by decide, h1, h2, h3⟩

/-! ## Claim C9 — shift-out ordering -/

/-- `testBit` of the byte `(x >> m) & 0xFF`. -/
theorem byte_testBit (x m j : Nat) :
    ((x >>> m) &&& 255).testBit j = (x.testBit (m + j) && decide (j < 8)) := by
  have h255 : (255 : Nat) = 2 ^ 8 - 1 := rfl
  rw [Nat.testBit_and, Nat.testBit_shiftRight, h255, Nat.testBit_two_pow_sub_one]

/-- In-range `testBit` of the byte `(x >> m) & 0xFF`. -/
theorem byte_testBit8 (x m j : Nat) (h : j < 8) :
    ((x >>> m) &&& 255).testBit j = x.testBit (m + j) := by
  rw [byte_testBit, decide_eq_true h, Bool.and_true]

set_option maxHeartbeats 2000000 in
/-- Claim C9: the emission protocol — latch low, bytes `(frame >> (chip*8))
& 0xFF` for `chip` from 5 down to 0, each MSB first with one clock pulse per
bit, latch high — delivers bit `k` of the frame to physical output `k` of
the cascaded six-register chain, for every `k` in 0..47. -/
theorem shiftout_ordering (frame k : Nat) (hk : k < 48) :
    (chainLoad (emittedBits frame)).getD k false = frame.testBit k := by
  interval_cases k <;>
    exact ((byte_testBit8 frame _ _ (by norm_num)).trans (by norm_num))

/-- Claim C9 witness: output 5 of the chain carries bit 5 of the frame
`0x115F66E3A3C`. -/
theorem shiftout_ordering_witness :
    (5 : Nat) < 48 ∧
    (chainLoad (emittedBits 19088743107260)).getD 5 false
      = Nat.testBit 19088743107260 5 :=
  ⟨by decide, shiftout_ordering 19088743107260 5 (by decide)⟩

/-! ## Helper lemma on the whole-second update tail -/

/-- After `publishAndPolicy` the stream holds the newly composed frame, the
lease is untouched, `lastUpdate` records the tick time, and both brightness
values follow the hour rule of main.cpp lines 441–452. -/
theorem publishAndPolicy_spec (st : ClockState) (t : Nat) :
    ((publishAndPolicy st t).1).displaySerialStream = setDisplayStream (breakTime t) 0 ∧
    ((publishAndPolicy st t).1).tzInfo = st.tzInfo ∧
    ((publishAndPolicy st t).1).lastUpdate = t ∧
    ((publishAndPolicy st t).1).digitBrightness =
      (if (breakTime t).Hour ≥ beginLowBrightnessHour ∨
          (breakTime t).Hour < endLowBrightnessHour
       then lowBrightness else maxBrightness) ∧
    ((publishAndPolicy st t).1).ledBrightness
      = ((publishAndPolicy st t).1).digitBrightness := by
  by_cases h : (breakTime t).Hour ≥ beginLowBrightnessHour ∨
      (breakTime t).Hour < endLowBrightnessHour <;>
    simp [publishAndPolicy, h]

/-! ## Claim C8 — brightness policy -/

/-- Claim C8: every whole-second update that completes publishes the frame
composed from the decomposed current time and then sets both
`digitBrightness` and `ledBrightness` to `lowBrightness` (which is 10, i.e.
20 % of `maxBrightness` = 50) exactly when the local hour is at least 21 or
below 6 — equivalently, hour in `[0,6) ∪ [21,24)`, the hour always being
below 24 — and to `maxBrightness` for every other hour. -/
theorem brightness_policy (st : ClockState) (t : Nat) (wifi : Bool)
    (resp : HttpResponse) (st1 : ClockState) (es : List Nat) (r : Bool)
    (hne : t ≠ st.lastUpdate)
    (hok : loopIter st t wifi resp = .ok st1 es r) :
    st1.displaySerialStream = setDisplayStream (breakTime t) 0 ∧
    st1.digitBrightness =
      (if (breakTime t).Hour ≥ beginLowBrightnessHour ∨
          (breakTime t).Hour < endLowBrightnessHour
       then lowBrightness else maxBrightness) ∧
    st1.ledBrightness = st1.digitBrightness ∧
    lowBrightness = 10 ∧ maxBrightness = 50 ∧ lowBrightness * 5 = maxBrightness ∧
    (breakTime t).Hour < 24 ∧
    ((breakTime t).Hour ≥ beginLowBrightnessHour ∨
        (breakTime t).Hour < endLowBrightnessHour
      ↔ (breakTime t).Hour < 6 ∨ 21 ≤ (breakTime t).Hour) := by
  have h24 : (breakTime t).Hour < 24 := by
    simp [breakTime]
    omega
  have hiff : ((breakTime t).Hour ≥ beginLowBrightnessHour ∨
      (breakTime t).Hour < endLowBrightnessHour
    ↔ (breakTime t).Hour < 6 ∨ 21 ≤ (breakTime t).Hour) := by
    simp [beginLowBrightnessHour, endLowBrightnessHour]
    omega
  by_cases hv : st.tzInfo.validUntil < t
  · cases hr : updateTimeZoneInfo wifi resp st.tzInfo with
    | none => simp [loopIter, hne, hv, hr] at hok
    | some tz =>
      simp [loopIter, hne, hv, hr] at hok
      obtain ⟨hst, hes, hrr⟩ := hok
      subst hst
      exact ⟨(publishAndPolicy_spec _ t).1, (publishAndPolicy_spec _ t).2.2.2.1,
        (publishAndPolicy_spec _ t).2.2.2.2, rfl, rfl, rfl, h24, hiff⟩
  · simp [loopIter, hne, hv] at hok
    obtain ⟨hst, hes, hrr⟩ := hok
    subst hst
    exact ⟨(publishAndPolicy_spec _ t).1, (publishAndPolicy_spec _ t).2.2.2.1,
      (publishAndPolicy_spec _ t).2.2.2.2, rfl, rfl, rfl, h24, hiff⟩

/-- Claim C8 witness: at local time 22:00:00 (t = 79200) the completed
update sets both brightness values to `lowBrightness` and publishes the
composed frame; the final state is evaluated explicitly. -/
theorem brightness_policy_witness :
    ((79200 : Nat) ≠
      (⟨⟨false, 0, 99999⟩, 50, 50, 0, 0, ⟨0, 0⟩⟩ : ClockState).lastUpdate) ∧
    ((⟨⟨false, 0, 99999⟩, 10, 10, 79200, 1649267442692, ⟨3, 3⟩⟩ :
        ClockState).digitBrightness =
      (if (breakTime 79200).Hour ≥ beginLowBrightnessHour ∨
          (breakTime 79200).Hour < endLowBrightnessHour
       then lowBrightness else maxBrightness)) ∧
    ((⟨⟨false, 0, 99999⟩, 10, 10, 79200, 1649267442692, ⟨3, 3⟩⟩ :
        ClockState).ledBrightness =
      (⟨⟨false, 0, 99999⟩, 10, 10, 79200, 1649267442692, ⟨3, 3⟩⟩ :
        ClockState).digitBrightness) ∧
    (⟨⟨false, 0, 99999⟩, 10, 10, 79200, 1649267442692, ⟨3, 3⟩⟩ :
        ClockState).displaySerialStream = setDisplayStream (breakTime 79200) 0 := by
  have h := brightness_policy ⟨⟨false, 0, 99999⟩, 50, 50, 0, 0, ⟨0, 0⟩⟩ 79200 true
    ⟨200, none⟩ ⟨⟨false, 0, 99999⟩, 10, 10, 79200, 1649267442692, ⟨3, 3⟩⟩
    [0, 1649267442692, 1649267442692] false (by decide) (by decide)
  exact ⟨by decide, h.2.1, h.2.2.1, h.1⟩

/-! ## Claim C1 — lease renewal timing -/

/-- Claim C1 counterexample: seed the lease with `validUntil = 1000` and run
the whole-second update at `now = 1000` (the spec's scenario 4): although
`now ≥ validUntil`, the code's strict test `validUntil < now` does not
trigger a renewal, the tick completes without rebooting, and afterwards
`now < validUntil` is false. -/
theorem renewal_law_cex :
    ((1000 : Nat) ≥
      (⟨⟨false, 0, 1000⟩, 50, 50, 999, 0, ⟨0, 0⟩⟩ : ClockState).tzInfo.validUntil) ∧
    (loopIter ⟨⟨false, 0, 1000⟩, 50, 50, 999, 0, ⟨0, 0⟩⟩ 1000 true
      ⟨500, none⟩).renewFlag = false ∧
    (loopIter ⟨⟨false, 0, 1000⟩, 50, 50, 999, 0, ⟨0, 0⟩⟩ 1000 true
      ⟨500, none⟩).isReboot = false ∧
    ((loopIter ⟨⟨false, 0, 1000⟩, 50, 50, 999, 0, ⟨0, 0⟩⟩ 1000 true
      ⟨500, none⟩).finalState.map
        (fun s => decide (1000 < s.tzInfo.validUntil))) = some false := by
  decide

/-- Claim C1 (amended): a whole-second update invokes `renewTimezone` iff
`now > lease.validUntil` (strictly); if the renewal is invoked and fails,
the iteration reboots after a 5-second delay, publishing no new display
state; whenever the update completes without invoking a renewal,
`now ≤ lease.validUntil` and the lease is unchanged; and on a successful
renewal the new lease is committed before the new display state is
published. -/
theorem renewal_law_amended (st : ClockState) (t : Nat) (wifi : Bool)
    (resp : HttpResponse) (hne : t ≠ st.lastUpdate) :
    ((loopIter st t wifi resp).renewFlag = true ↔ st.tzInfo.validUntil < t) ∧
    (st.tzInfo.validUntil < t → (getTzInfo wifi resp st.tzInfo).1 = false →
      loopIter st t wifi resp = .reboot 5000) ∧
    (∀ st1 es, loopIter st t wifi resp = .ok st1 es false →
      t ≤ st1.tzInfo.validUntil ∧ st1.tzInfo = st.tzInfo) ∧
    (∀ st1 es tz, updateTimeZoneInfo wifi resp st.tzInfo = some tz →
      loopIter st t wifi resp = .ok st1 es true →
      st1.tzInfo = tz ∧ st1.displaySerialStream = setDisplayStream (breakTime t) 0) := by
  refine ⟨?_, ?_, ?_, ?_⟩
  · by_cases hv : st.tzInfo.validUntil < t
    · cases hr : updateTimeZoneInfo wifi resp st.tzInfo with
      | none => simp [loopIter, hne, hv, hr, LoopOutcome.renewFlag]
      | some tz => simp [loopIter, hne, hv, hr, LoopOutcome.renewFlag]
    · simp [loopIter, hne, hv, LoopOutcome.renewFlag]
  · intro hv hfail
    have hnone : updateTimeZoneInfo wifi resp st.tzInfo = none := by
      unfold updateTimeZoneInfo
      rcases hg : getTzInfo wifi resp st.tzInfo with ⟨b, tzv⟩
      rw [hg] at hfail
      simp only at hfail
      subst hfail
      rfl
    simp [loopIter, hne, hv, hnone]
  · intro st1 es h
    by_cases hv : st.tzInfo.validUntil < t
    · cases hr : updateTimeZoneInfo wifi resp st.tzInfo with
      | none => simp [loopIter, hne, hv, hr] at h
      | some tz => simp [loopIter, hne, hv, hr] at h
    · simp [loopIter, hne, hv] at h
      obtain ⟨hst, hes, hrr⟩ := h
      subst hst
      refine ⟨?_, (publishAndPolicy_spec _ t).2.1⟩
      rw [(publishAndPolicy_spec _ t).2.1]
      simp only
      omega
  · intro st1 es tz htz h
    by_cases hv : st.tzInfo.validUntil < t
    · simp [loopIter, hne, hv, htz] at h
      obtain ⟨hst, hes, hrr⟩ := h
      subst hst
      exact ⟨(publishAndPolicy_spec _ t).2.1, (publishAndPolicy_spec _ t).1⟩
    · simp [loopIter, hne, hv] at h

/-- Claim C1 witness: an expired lease (`validUntil = 1000`, `now = 1001`)
with a failing HTTP exchange (status 500) makes the iteration reboot after
the 5000 ms delay. -/
theorem renewal_law_witness :
    ((1001 : Nat) ≠
      (⟨⟨false, 0, 1000⟩, 50, 50, 42, 0, ⟨0, 0⟩⟩ : ClockState).lastUpdate) ∧
    ((⟨⟨false, 0, 1000⟩, 50, 50, 42, 0, ⟨0, 0⟩⟩ : ClockState).tzInfo.validUntil < 1001) ∧
    loopIter ⟨⟨false, 0, 1000⟩, 50, 50, 42, 0, ⟨0, 0⟩⟩ 1001 true ⟨500, none⟩
      = .reboot 5000 :=
  ⟨by decide, by decide,
   (renewal_law_amended ⟨⟨false, 0, 1000⟩, 50, 50, 42, 0, ⟨0, 0⟩⟩ 1001 true
     ⟨500, none⟩ (by decide)).2.1 (by decide) (by decide)⟩

end NixieClock
